import Mathlib

/-!
# Verification of the credit-gated enhancement gateway (src/App.py)

Shallow embedding of the core, non-UI functions of `src/App.py`:
`AirtableClient.get_records` / `create_record` / `update_record` (modelled as
operations on an explicit `World` state), `check_api_key_credits`,
`update_credits`, `log_api_call`, `enhance_image` and `get_correct_filename`,
together with the Python `base64.b64encode` / `b64decode` pair and
`os.path.splitext` that those functions call.

Network nondeterminism is made explicit: the enhancement service's behaviour
on one call is a `ServiceBehavior` value (a raised transport exception or an
HTTP response), and record-store failures are flags in the `World` state
(`get_records` swallows a request exception and returns the empty list,
`update_record` and `create_record` swallow it and perform no write, exactly
as the `try/except requests.exceptions.RequestException` blocks do).
Wall-clock readings (`datetime.now().isoformat()`, the rounded
`processing_time`) are opaque input strings threaded through unchanged.
-/

/-- One Airtable record of the accounts table: `id` plus the fields
`API_KEY`, `Used_credits`, `Allowed_credits`.  A field missing from the
record is `none`; the Python reads them with `fields.get(_, 0)`. -/
structure AccountRecord where
  id : String
  apiKey : String
  usedCredits : Option Int
  allowedCredits : Option Int
deriving DecidableEq

/-- One Airtable record of the logs table, with exactly the fields built by
`log_api_call`. -/
structure LogEntry where
  timestamp : String
  api_key : String
  status : String
  original_size : Option String
  output_size : Option String
  scale : Option Int
  format : Option String
  processing_time : Option String
  error_message : Option String
deriving DecidableEq

/-- The external record store (both Airtable bases) plus failure switches:
`authQueryFails` makes `get_records` on the auth base raise (hence return
`[]`), `authUpdateFails` makes `update_record` raise (hence write nothing),
`logsCreateFails` makes `create_record` on the logs base raise (hence write
nothing). -/
structure World where
  accounts : List AccountRecord
  logs : List LogEntry
  authQueryFails : Bool
  authUpdateFails : Bool
  logsCreateFails : Bool
deriving DecidableEq

/-- `AirtableClient.get_records` on the auth base with
`filterByFormula` equal to an `API_KEY` equality filter: Airtable returns the
records whose `API_KEY` field equals the key; on a `RequestException` the
Python `except` returns `[]`. -/
def get_records (w : World) (api_key : String) : List AccountRecord :=
  if w.authQueryFails then [] else w.accounts.filter (fun r => r.apiKey == api_key)

/-- `AirtableClient.update_record` on the auth base, specialised to the only
call site, which patches the single field `Used_credits`.  On a
`RequestException` the `except` returns `None` and nothing is written. -/
def update_record (w : World) (record_id : String) (new_used : Int) : World :=
  if w.authUpdateFails then w
  else
    let patched := w.accounts.map fun r =>
      if r.id == record_id then { r with usedCredits := some new_used } else r
    { w with accounts := patched }

/-- `AirtableClient.create_record` on the logs base.  On a
`RequestException` the `except` returns `None` and nothing is written. -/
def create_record (w : World) (e : LogEntry) : World :=
  if w.logsCreateFails then w else { w with logs := w.logs ++ [e] }

/-- `check_api_key_credits`: query by API key; `None` result when no record
is returned, `False` when the remaining credits are ≤ 0, `True` otherwise,
each paired with the exact message the Python builds. -/
def check_api_key_credits (w : World) (api_key : String) : Option Bool × String :=
  match get_records w api_key with
  | [] => (none, "Clé API non trouvée")
  | record :: _ =>
    let used := record.usedCredits.getD 0
    let allowed := record.allowedCredits.getD 0
    let remaining := allowed - used
    if remaining ≤ 0 then
      (some false, "Plus de crédits restants (utilisés: " ++ toString used ++ "/" ++ toString allowed ++ ")")
    else
      (some true, toString remaining ++ " crédits restants (utilisés: " ++ toString used ++ "/" ++ toString allowed ++ ")")

/-- `update_credits`: re-query the account by API key, and when a record is
found patch `Used_credits` to the current value plus `increment`.  When no
record is found nothing happens.  The Python default argument is
`increment=1`; the single caller passes the default. -/
def update_credits (w : World) (api_key : String) (increment : Int) : World :=
  match get_records w api_key with
  | [] => w
  | record :: _ =>
    let current_used := record.usedCredits.getD 0
    let new_used := current_used + increment
    update_record w record.id new_used

/-- Python truthiness conversion `str(x) if x else None` applied to an
optional string: `None` and `""` are falsy and give `None`. -/
def pyStrOpt (o : Option String) : Option String :=
  match o with
  | none => none
  | some s => if s = "" then none else some s

/-- `log_api_call`: build one log entry and create it in the logs base.
`now` stands for `datetime.now().isoformat()`. -/
def log_api_call (w : World) (now : String) (api_key status : String)
    (original_size output_size : Option String) (scale : Option Int)
    (format_type : Option String) (processing_time : Option String)
    (error_message : Option String) : World :=
  create_record w
    { timestamp := now
      api_key := api_key
      status := status
      original_size := pyStrOpt original_size
      output_size := pyStrOpt output_size
      scale := scale
      format := format_type
      processing_time := processing_time
      error_message := error_message }

/-! ## Base64 (Python `base64.b64encode` / `b64decode`, standard alphabet) -/

/-- The standard base64 alphabet: sextet value to character. -/
def b64Char (k : Nat) : Char :=
  if k < 26 then Char.ofNat (65 + k)
  else if k < 52 then Char.ofNat (97 + (k - 26))
  else if k < 62 then Char.ofNat (48 + (k - 52))
  else if k = 62 then '+'
  else '/'

/-- The standard base64 alphabet: character to sextet value, `none` for a
character outside the alphabet (in particular for the pad `=`). -/
def b64Index (c : Char) : Option Nat :=
  let n := c.toNat
  if 65 ≤ n ∧ n ≤ 90 then some (n - 65)
  else if 97 ≤ n ∧ n ≤ 122 then some (26 + (n - 97))
  else if 48 ≤ n ∧ n ≤ 57 then some (52 + (n - 48))
  else if c = '+' then some 62
  else if c = '/' then some 63
  else none

/-- `base64.b64encode` on a byte list: groups of three bytes become four
alphabet characters, a trailing group of two or one byte is padded with
`=`. -/
def b64encodeList : List Nat → List Char
  | [] => []
  | [a] => [b64Char (a / 4), b64Char (a % 4 * 16), '=', '=']
  | [a, b] => [b64Char (a / 4), b64Char (a % 4 * 16 + b / 16), b64Char (b % 16 * 4), '=']
  | a :: b :: c :: rest =>
      b64Char (a / 4) :: b64Char (a % 4 * 16 + b / 16) ::
      b64Char (b % 16 * 4 + c / 64) :: b64Char (c % 64) :: b64encodeList rest

/-- `base64.b64decode` on a character list: four characters at a time, the
last group optionally padded.  A malformed input gives `none`, standing for
the `binascii.Error` the Python raises. -/
def b64decodeList : List Char → Option (List Nat)
  | [] => some []
  | c1 :: c2 :: c3 :: c4 :: rest =>
    (b64Index c1).bind fun k1 =>
    (b64Index c2).bind fun k2 =>
    if c3 = '=' then
      (if c4 = '=' ∧ rest = [] then some [k1 * 4 + k2 / 16] else none)
    else
      (b64Index c3).bind fun k3 =>
      if c4 = '=' then
        (if rest = [] then some [k1 * 4 + k2 / 16, k2 % 16 * 16 + k3 / 4] else none)
      else
        (b64Index c4).bind fun k4 =>
        (b64decodeList rest).map fun tail =>
          (k1 * 4 + k2 / 16) :: (k2 % 16 * 16 + k3 / 4) :: (k3 % 4 * 64 + k4) :: tail
  | _ => none

/-- `base64.b64encode(bytes).decode()` as a string. -/
def b64encode (bs : List Nat) : String := ⟨b64encodeList bs⟩

/-- `base64.b64decode` on a string. -/
def b64decode (s : String) : Option (List Nat) := b64decodeList s.data

theorem b64Index_b64Char_fin : ∀ k : Fin 64, b64Index (b64Char k.val) = some k.val := by
  decide

theorem b64Index_b64Char (k : Nat) (h : k < 64) : b64Index (b64Char k) = some k :=
  b64Index_b64Char_fin ⟨k, h⟩

theorem b64Char_ne_pad (k : Nat) (h : k < 64) : b64Char k ≠ '=' := by
  intro hc
  have h1 := b64Index_b64Char k h
  rw [hc] at h1
  simp [b64Index] at h1

/-- Decoding inverts encoding on byte lists. -/
theorem b64decodeList_encodeList :
    ∀ bs : List Nat, (∀ x ∈ bs, x < 256) → b64decodeList (b64encodeList bs) = some bs
  | [], _ => rfl
  | [a], h => by
    have ha : a < 256 := h a (by simp)
    have h1 : a / 4 < 64 := by omega
    have h2 : a % 4 * 16 < 64 := by omega
    simp only [b64encodeList, b64decodeList, b64Index_b64Char _ h1, b64Index_b64Char _ h2,
      Option.some_bind']
    simp only [and_self, if_pos trivial, Option.some.injEq, List.cons.injEq, and_true]
    omega
  | [a, b], h => by
    have ha : a < 256 := h a (by simp)
    have hb : b < 256 := h b (by simp)
    have h1 : a / 4 < 64 := by omega
    have h2 : a % 4 * 16 + b / 16 < 64 := by omega
    have h3 : b % 16 * 4 < 64 := by omega
    simp only [b64encodeList, b64decodeList, b64Index_b64Char _ h1, b64Index_b64Char _ h2,
      b64Index_b64Char _ h3, Option.some_bind']
    rw [if_neg (b64Char_ne_pad _ h3)]
    simp only [if_pos trivial, Option.some.injEq, List.cons.injEq, and_true]
    constructor
    · omega
    · omega
  | a :: b :: c :: d :: rest, h => by
    have ha : a < 256 := h a (by simp)
    have hb : b < 256 := h b (by simp)
    have hc : c < 256 := h c (by simp)
    have h1 : a / 4 < 64 := by omega
    have h2 : a % 4 * 16 + b / 16 < 64 := by omega
    have h3 : b % 16 * 4 + c / 64 < 64 := by omega
    have h4 : c % 64 < 64 := by omega
    have ih := b64decodeList_encodeList (d :: rest)
      (fun x hx => h x (by simp at hx ⊢; tauto))
    simp only [b64encodeList] at ih ⊢
    simp only [b64decodeList, b64Index_b64Char _ h1, b64Index_b64Char _ h2,
      b64Index_b64Char _ h3, b64Index_b64Char _ h4, Option.some_bind']
    rw [if_neg (b64Char_ne_pad _ h3), if_neg (b64Char_ne_pad _ h4), ih]
    simp only [Option.map_some', Option.some.injEq, List.cons.injEq, and_true]
    refine ⟨by omega, by omega, by omega⟩
  | [a, b, c], h => by
    have ha : a < 256 := h a (by simp)
    have hb : b < 256 := h b (by simp)
    have hc : c < 256 := h c (by simp)
    have h1 : a / 4 < 64 := by omega
    have h2 : a % 4 * 16 + b / 16 < 64 := by omega
    have h3 : b % 16 * 4 + c / 64 < 64 := by omega
    have h4 : c % 64 < 64 := by omega
    simp only [b64encodeList, b64decodeList, b64Index_b64Char _ h1, b64Index_b64Char _ h2,
      b64Index_b64Char _ h3, b64Index_b64Char _ h4, Option.some_bind']
    rw [if_neg (b64Char_ne_pad _ h3), if_neg (b64Char_ne_pad _ h4)]
    simp only [Option.map_some', Option.some.injEq, List.cons.injEq, and_true]
    refine ⟨by omega, by omega, by omega⟩

/-- Decoding inverts encoding, at the string level. -/
theorem b64decode_b64encode (bs : List Nat) (h : ∀ x ∈ bs, x < 256) :
    b64decode (b64encode bs) = some bs :=
  b64decodeList_encodeList bs h

/-! ## The enhancement service call (`enhance_image`) -/

/-- The parsed JSON body of an HTTP 200 enhancement response together with
the HTTP status and raw text.  `success` is the truthiness of
`result.get("success")` (an absent field is falsy); the optional fields are
`none` when absent. -/
structure EnhanceResponse where
  status : Nat
  text : String
  success : Bool
  output_image : Option String
  original_size : Option String
  output_size : Option String
  error : Option String
deriving DecidableEq

/-- What the network did on this one `requests.post` call: either a raised
`Exception` with message `str(e)`, or a response. -/
inductive ServiceBehavior where
  | exn (message : String)
  | resp (r : EnhanceResponse)
deriving DecidableEq

/-- The third component of `enhance_image`'s returned triple: on success the
full parsed response dict `result`, on failure the dict
`{"error": error_msg}`. -/
inductive Details where
  | ok (r : EnhanceResponse)
  | err (message : String)
deriving DecidableEq

/-- `enhance_image(image_data, api_key, scale, format_type)`.

The Python defaults are `scale=4`, `format_type="JPEG"`; its caller always
passes both.  `now` stands for `datetime.now().isoformat()` inside
`log_api_call` and `pt` for the rounded wall-clock `processing_time`; both
are opaque inputs.  `beh` is the behaviour of the `requests.post` call.  The
`base64.b64decode` of the `output_image` field can itself raise
(`binascii.Error`), and a missing `output_image` key raises `KeyError`; both
land in the same `except Exception` block that logs status `"exception"`, so
they are modelled with the corresponding messages.  Returns the Python
triple `(success, output_data, result-or-error-dict)` paired with the final
store state. -/
def enhance_image (w : World) (now pt : String) (image_data : List Nat)
    (api_key : String) (beh : ServiceBehavior) (scale : Int) (format_type : String) :
    (Bool × Option (List Nat) × Details) × World :=
  match beh with
  | .exn message =>
    let w1 := log_api_call w now api_key "exception" none none (some scale)
      (some format_type) (some pt) (some message)
    ((false, none, .err message), w1)
  | .resp r =>
    if r.status == 200 then
      if r.success then
        match r.output_image with
        | some img =>
          match b64decode img with
          | some output_data =>
            let w1 := log_api_call w now api_key "success" r.original_size r.output_size
              (some scale) (some format_type) (some pt) none
            let w2 := update_credits w1 api_key 1
            ((true, some output_data, .ok r), w2)
          | none =>
            let message := "Invalid base64-encoded string"
            let w1 := log_api_call w now api_key "exception" none none (some scale)
              (some format_type) (some pt) (some message)
            ((false, none, .err message), w1)
        | none =>
          let message := "KeyError: output_image"
          let w1 := log_api_call w now api_key "exception" none none (some scale)
            (some format_type) (some pt) (some message)
          ((false, none, .err message), w1)
      else
        let error_msg := r.error.getD "Erreur inconnue"
        let w1 := log_api_call w now api_key "api_error" none none (some scale)
          (some format_type) (some pt) (some error_msg)
        ((false, none, .err error_msg), w1)
    else
      let error_msg := "HTTP " ++ toString r.status ++ ": " ++ r.text
      let w1 := log_api_call w now api_key "http_error" none none (some scale)
        (some format_type) (some pt) (some error_msg)
      ((false, none, .err error_msg), w1)

/-! ## Filename helper (`get_correct_filename` and `os.path.splitext`) -/

/-- Index of the last occurrence of `c` in `l`, or `-1` when absent —
Python's `str.rfind`. -/
def rfindChar (l : List Char) (c : Char) : Int :=
  (l.foldl (fun (p : Int × Nat) x => (if x = c then (p.2 : Int) else p.1, p.2 + 1)) (-1, 0)).1

/-- `os.path.splitext` (POSIX): split at the last dot, provided the dot
comes after the last `/` and at least one character of the final path
component before that dot is not itself a dot (leading dots are not an
extension separator). -/
def splitext (s : String) : String × String :=
  let p := s.data
  let sepIndex := rfindChar p '/'
  let dotIndex := rfindChar p '.'
  if sepIndex < dotIndex then
    let fi := (sepIndex + 1).toNat
    if ((p.drop fi).take (dotIndex.toNat - fi)).any (fun ch => ch ≠ '.') then
      (⟨p.take dotIndex.toNat⟩, ⟨p.drop dotIndex.toNat⟩)
    else (s, "")
  else (s, "")

/-- `get_correct_filename(original_filename, scale, format_type)`: the base
name without its extension, prefixed with the scale factor and given the
extension derived from the output format. -/
def get_correct_filename (original_filename : String) (scale : Int)
    (format_type : String) : String :=
  let base_name := (splitext original_filename).1
  let extension := if format_type == "JPEG" then "jpg" else "png"
  toString scale ++ "x_" ++ base_name ++ "." ++ extension

/-! ## Helper lemmas -/

theorem get_records_eq_filter (w : World) (key : String) (rec : AccountRecord)
    (rest : List AccountRecord) (hget : get_records w key = rec :: rest) :
    w.authQueryFails = false ∧ w.accounts.filter (fun a => a.apiKey == key) = rec :: rest := by
  rcases hq : w.authQueryFails
  · rw [get_records, hq] at hget
    exact ⟨rfl, hget⟩
  · rw [get_records, hq] at hget
    simp at hget

/-- The log entry `enhance_image` hands to `log_api_call` (which applies
the Python truthiness conversion to the two size fields and passes the
scale, format, processing time and error message through). -/
def mkLogEntry (now key status : String) (original_size output_size : Option String)
    (scale : Int) (format_type pt : String) (error_message : Option String) : LogEntry :=
  { timestamp := now
    api_key := key
    status := status
    original_size := pyStrOpt original_size
    output_size := pyStrOpt output_size
    scale := some scale
    format := some format_type
    processing_time := some pt
    error_message := error_message }

theorem accounts_log_api_call (w : World) (now api_key status : String)
    (original_size output_size : Option String) (scale : Option Int)
    (format_type processing_time error_message : Option String) :
    (log_api_call w now api_key status original_size output_size scale
      format_type processing_time error_message).accounts = w.accounts := by
  by_cases h : w.logsCreateFails <;> simp [log_api_call, create_record, h]

/-- On every path of `enhance_image` that returns `ok=false`, the accounts
store is left untouched: `update_credits` is reached only on the success
path. -/
theorem enhance_image_false_accounts
    (w : World) (now pt : String) (img : List Nat) (key format_type : String)
    (scale : Int) (beh : ServiceBehavior)
    (hfail : (enhance_image w now pt img key beh scale format_type).1.1 = false) :
    (enhance_image w now pt img key beh scale format_type).2.accounts = w.accounts := by
  cases beh with
  | exn message => simp [enhance_image, accounts_log_api_call]
  | resp r =>
    by_cases h200 : r.status == 200
    · by_cases hsucc : r.success
      · cases hoi : r.output_image with
        | none => simp [enhance_image, h200, hsucc, hoi, accounts_log_api_call]
        | some img2 =>
          cases hdec : b64decode img2 with
          | none => simp [enhance_image, h200, hsucc, hoi, hdec, accounts_log_api_call]
          | some out =>
            rw [enhance_image] at hfail
            simp only [h200, if_true, hsucc, hoi, hdec] at hfail
            exact absurd hfail (by simp)
      · simp [enhance_image, h200, hsucc, accounts_log_api_call]
    · simp [enhance_image, h200, accounts_log_api_call]

/-! ## Claims -/

/-- Claim C1: when the enhancement service answers HTTP 200 with
`success=true` and an `output_image` that is the base64 encoding of the
byte list `bs`, `enhance_image` returns `ok=true` with output bytes equal
to the base64-decoding of `output_image` (namely `bs`, hence of the same
length), appends exactly one log entry with status `"success"`, and patches
the account's `Used_credits` to its current value plus 1; moreover (last
conjunct) on every behaviour for which the call reports failure the
accounts are untouched — the credit increment happens only on this success
path. -/
theorem enhance_image_success_spec
    (w : World) (now pt : String) (img bs : List Nat) (key format_type : String)
    (scale : Int) (r : EnhanceResponse) (rec : AccountRecord) (rest : List AccountRecord)
    (hbytes : ∀ x ∈ bs, x < 256)
    (hst : r.status = 200) (hsu : r.success = true)
    (hoi : r.output_image = some (b64encode bs))
    (hlog : w.logsCreateFails = false)
    (hupd : w.authUpdateFails = false)
    (hget : get_records w key = rec :: rest) :
    (enhance_image w now pt img key (.resp r) scale format_type).1.1 = true
    ∧ (enhance_image w now pt img key (.resp r) scale format_type).1.2.1 = some bs
    ∧ (∀ out, (enhance_image w now pt img key (.resp r) scale format_type).1.2.1 = some out →
        out.length = bs.length)
    ∧ (enhance_image w now pt img key (.resp r) scale format_type).2.logs
        = w.logs ++ [mkLogEntry now key "success" r.original_size r.output_size
            scale format_type pt none]
    ∧ (enhance_image w now pt img key (.resp r) scale format_type).2.accounts
        = w.accounts.map (fun a => if a.id == rec.id
            then { a with usedCredits := some (rec.usedCredits.getD 0 + 1) } else a)
    ∧ (∀ beh, (enhance_image w now pt img key beh scale format_type).1.1 = false →
        (enhance_image w now pt img key beh scale format_type).2.accounts = w.accounts) := by
  obtain ⟨hq, hfilter⟩ := get_records_eq_filter w key rec rest hget
  have hout : (enhance_image w now pt img key (.resp r) scale format_type).1.2.1 = some bs := by
    simp [enhance_image, hst, hsu, hoi, b64decode_b64encode bs hbytes]
  refine ⟨?_, hout, ?_, ?_, ?_, ?_⟩
  · simp [enhance_image, hst, hsu, hoi, b64decode_b64encode bs hbytes]
  · intro out h2
    rw [hout] at h2
    rw [Option.some.injEq] at h2
    rw [h2]
  · simp [enhance_image, hst, hsu, hoi, b64decode_b64encode bs hbytes, log_api_call,
      create_record, mkLogEntry, hlog, update_credits, get_records, hq, hfilter,
      update_record, hupd]
  · simp [enhance_image, hst, hsu, hoi, b64decode_b64encode bs hbytes, log_api_call,
      create_record, mkLogEntry, hlog, update_credits, get_records, hq, hfilter,
      update_record, hupd]
  · exact fun beh hfail => enhance_image_false_accounts w now pt img key format_type scale beh hfail

/-- A concrete account record used by the witnesses. -/
def recA : AccountRecord := ⟨"r1", "K1", some 3, some 5⟩

/-- A concrete healthy world: one account, no logs, no failures. -/
def wA : World := ⟨[recA], [], false, false, false⟩

/-- A concrete successful response whose `output_image` encodes `[7, 8, 9]`. -/
def rOk : EnhanceResponse := ⟨200, "", true, some (b64encode [7, 8, 9]), some "10x10", some "40x40", none⟩

theorem enhance_image_success_spec_witness :
    (enhance_image wA "T" "0.5" [1] "K1" (.resp rOk) 4 "JPEG").1.1 = true
    ∧ (enhance_image wA "T" "0.5" [1] "K1" (.resp rOk) 4 "JPEG").1.2.1 = some [7, 8, 9]
    ∧ (∀ out, (enhance_image wA "T" "0.5" [1] "K1" (.resp rOk) 4 "JPEG").1.2.1 = some out →
        out.length = [7, 8, 9].length)
    ∧ (enhance_image wA "T" "0.5" [1] "K1" (.resp rOk) 4 "JPEG").2.logs
        = wA.logs ++ [mkLogEntry "T" "K1" "success" rOk.original_size rOk.output_size
            4 "JPEG" "0.5" none]
    ∧ (enhance_image wA "T" "0.5" [1] "K1" (.resp rOk) 4 "JPEG").2.accounts
        = wA.accounts.map (fun a => if a.id == recA.id
            then { a with usedCredits := some (recA.usedCredits.getD 0 + 1) } else a)
    ∧ (∀ beh, (enhance_image wA "T" "0.5" [1] "K1" beh 4 "JPEG").1.1 = false →
        (enhance_image wA "T" "0.5" [1] "K1" beh 4 "JPEG").2.accounts = wA.accounts) :=
  enhance_image_success_spec wA "T" "0.5" [1] [7, 8, 9] "K1" "JPEG" 4 rOk recA []
    (by decide) rfl rfl rfl rfl rfl (by decide)

/-- Claim C2: every failing `enhance_image` call — raised transport
exception, non-200 HTTP status, or HTTP 200 with `success=false` — returns
`ok=false`, appends exactly one log entry whose status tag matches the
failure kind (`"exception"`, `"http_error"`, `"api_error"` respectively),
and leaves the accounts (hence `Used_credits`) untouched: `update_credits`
is not invoked on any failure path. -/
theorem enhance_image_failure_spec
    (w : World) (now pt : String) (img : List Nat) (key format_type : String) (scale : Int)
    (hlog : w.logsCreateFails = false) :
    (∀ message,
      (enhance_image w now pt img key (.exn message) scale format_type).1.1 = false
      ∧ (enhance_image w now pt img key (.exn message) scale format_type).2.accounts = w.accounts
      ∧ (enhance_image w now pt img key (.exn message) scale format_type).2.logs
          = w.logs ++ [mkLogEntry now key "exception" none none scale format_type pt
              (some message)])
    ∧ (∀ r : EnhanceResponse, r.status ≠ 200 →
      (enhance_image w now pt img key (.resp r) scale format_type).1.1 = false
      ∧ (enhance_image w now pt img key (.resp r) scale format_type).2.accounts = w.accounts
      ∧ (enhance_image w now pt img key (.resp r) scale format_type).2.logs
          = w.logs ++ [mkLogEntry now key "http_error" none none scale format_type pt
              (some ("HTTP " ++ toString r.status ++ ": " ++ r.text))])
    ∧ (∀ r : EnhanceResponse, r.status = 200 → r.success = false →
      (enhance_image w now pt img key (.resp r) scale format_type).1.1 = false
      ∧ (enhance_image w now pt img key (.resp r) scale format_type).2.accounts = w.accounts
      ∧ (enhance_image w now pt img key (.resp r) scale format_type).2.logs
          = w.logs ++ [mkLogEntry now key "api_error" none none scale format_type pt
              (some (r.error.getD "Erreur inconnue"))]) := by
  refine ⟨?_, ?_, ?_⟩
  · intro message
    refine ⟨rfl, ?_, ?_⟩ <;>
      simp [enhance_image, log_api_call, create_record, mkLogEntry, hlog]
  · intro r hne
    refine ⟨?_, ?_, ?_⟩ <;>
      simp [enhance_image, hne, log_api_call, create_record, mkLogEntry, hlog]
  · intro r h200 hsf
    refine ⟨?_, ?_, ?_⟩ <;>
      simp [enhance_image, h200, hsf, log_api_call, create_record, mkLogEntry, hlog]

/-- A concrete non-200 response. -/
def r503 : EnhanceResponse := ⟨503, "Service Unavailable", false, none, none, none, none⟩

/-- A concrete HTTP 200 response reporting `success=false` with an error text. -/
def rApiErr : EnhanceResponse := ⟨200, "", false, none, none, none, some "bad scale"⟩

theorem enhance_image_failure_spec_witness :
    ((enhance_image wA "T" "0.5" [1] "K1" (.exn "boom") 4 "JPEG").1.1 = false
      ∧ (enhance_image wA "T" "0.5" [1] "K1" (.exn "boom") 4 "JPEG").2.accounts = wA.accounts
      ∧ (enhance_image wA "T" "0.5" [1] "K1" (.exn "boom") 4 "JPEG").2.logs
          = wA.logs ++ [mkLogEntry "T" "K1" "exception" none none 4 "JPEG" "0.5"
              (some "boom")])
    ∧ ((enhance_image wA "T" "0.5" [1] "K1" (.resp r503) 4 "JPEG").1.1 = false
      ∧ (enhance_image wA "T" "0.5" [1] "K1" (.resp r503) 4 "JPEG").2.accounts = wA.accounts
      ∧ (enhance_image wA "T" "0.5" [1] "K1" (.resp r503) 4 "JPEG").2.logs
          = wA.logs ++ [mkLogEntry "T" "K1" "http_error" none none 4 "JPEG" "0.5"
              (some ("HTTP " ++ toString r503.status ++ ": " ++ r503.text))])
    ∧ ((enhance_image wA "T" "0.5" [1] "K1" (.resp rApiErr) 4 "JPEG").1.1 = false
      ∧ (enhance_image wA "T" "0.5" [1] "K1" (.resp rApiErr) 4 "JPEG").2.accounts = wA.accounts
      ∧ (enhance_image wA "T" "0.5" [1] "K1" (.resp rApiErr) 4 "JPEG").2.logs
          = wA.logs ++ [mkLogEntry "T" "K1" "api_error" none none 4 "JPEG" "0.5"
              (some (rApiErr.error.getD "Erreur inconnue"))]) :=
  ⟨(enhance_image_failure_spec wA "T" "0.5" [1] "K1" "JPEG" 4 rfl).1 "boom",
   (enhance_image_failure_spec wA "T" "0.5" [1] "K1" "JPEG" 4 rfl).2.1 r503 (by decide),
   (enhance_image_failure_spec wA "T" "0.5" [1] "K1" "JPEG" 4 rfl).2.2 rApiErr rfl rfl⟩

/-- A world whose accounts store fails at the transport level on queries,
even though a record for "K1" exists. -/
def wStoreFail : World := ⟨[recA], [], true, false, false⟩

/-- A healthy world holding no record at all. -/
def wNoRecord : World := ⟨[], [], false, false, false⟩

/-- Claim C3 counterexample: when the store query fails,
`check_api_key_credits` returns exactly the same `(none, "Clé API non
trouvée")` result that it returns when the store responds successfully but
no record matches the key — there is no `Unavailable` status distinct from
the not-found one.  (`get_records` swallows the `RequestException` and
returns `[]`, which `check_api_key_credits` cannot tell apart from an empty
query result.) -/
theorem check_unavailable_counterexample :
    check_api_key_credits wStoreFail "K1" = (none, "Clé API non trouvée")
    ∧ check_api_key_credits wStoreFail "K1" = check_api_key_credits wNoRecord "K1" := by
  decide

/-- Claim C3 amended: when the store query fails at the transport level or
with a non-2xx response, `check_api_key_credits` does not crash — it
returns normally — but the surfaced result is the not-found one,
`(none, "Clé API non trouvée")`, indistinguishable from a missing key. -/
theorem check_store_failure_spec (w : World) (key : String)
    (hq : w.authQueryFails = true) :
    check_api_key_credits w key = (none, "Clé API non trouvée") := by
  simp [check_api_key_credits, get_records, hq]

theorem check_store_failure_spec_witness :
    check_api_key_credits wStoreFail "K9" = (none, "Clé API non trouvée") :=
  check_store_failure_spec wStoreFail "K9" rfl

/-- Claim C4: on a found record, `check_api_key_credits` computes
`remaining = allowedCredits - usedCredits` (with absent fields read as 0)
and returns the `Ok` status `some true` exactly when `remaining > 0`; for
`remaining ≤ 0` it returns the `Exhausted` status `some false`, never
`Ok`. -/
theorem check_found_spec (w : World) (key : String) (rec : AccountRecord)
    (rest : List AccountRecord) (hget : get_records w key = rec :: rest) :
    ((check_api_key_credits w key).1 = some true
      ↔ rec.allowedCredits.getD 0 - rec.usedCredits.getD 0 > 0)
    ∧ (rec.allowedCredits.getD 0 - rec.usedCredits.getD 0 ≤ 0 →
        (check_api_key_credits w key).1 = some false) := by
  simp only [check_api_key_credits, hget]
  by_cases hr : rec.allowedCredits.getD 0 - rec.usedCredits.getD 0 ≤ 0
  · rw [if_pos hr]
    refine ⟨⟨fun h => by simp at h, fun h => absurd h (by omega)⟩, fun _ => rfl⟩
  · rw [if_neg hr]
    refine ⟨⟨fun _ => by omega, fun _ => rfl⟩, fun h => absurd h hr⟩

theorem check_found_spec_witness :
    (((check_api_key_credits wA "K1").1 = some true
        ↔ recA.allowedCredits.getD 0 - recA.usedCredits.getD 0 > 0)
      ∧ (recA.allowedCredits.getD 0 - recA.usedCredits.getD 0 ≤ 0 →
          (check_api_key_credits wA "K1").1 = some false)) :=
  check_found_spec wA "K1" recA [] (by decide)

/-- Claim C5: for the account `{used: 3, allowed: 5}` bound to key "K1",
`check_api_key_credits "K1"` returns the `Ok` status `some true` and
exactly the message "2 crédits restants (utilisés: 3/5)", whose leading
number is the computed `remaining = 2`. -/
theorem check_scenario_spec :
    check_api_key_credits wA "K1" = (some true, "2 crédits restants (utilisés: 3/5)") := by
  decide

/-- Claim C6: on an HTTP status other than 200, `enhance_image` returns
`ok=false` with no output bytes and the error dict
`{"error": "HTTP <status>: <body>"}`, appends exactly one log entry with
status `"http_error"` carrying the same message, and leaves the accounts
unchanged. -/
theorem enhance_image_http_error_spec
    (w : World) (now pt : String) (img : List Nat) (key format_type : String)
    (scale : Int) (r : EnhanceResponse)
    (hlog : w.logsCreateFails = false) (hne : r.status ≠ 200) :
    (enhance_image w now pt img key (.resp r) scale format_type).1.1 = false
    ∧ (enhance_image w now pt img key (.resp r) scale format_type).1.2.1 = none
    ∧ (enhance_image w now pt img key (.resp r) scale format_type).1.2.2
        = Details.err ("HTTP " ++ toString r.status ++ ": " ++ r.text)
    ∧ (enhance_image w now pt img key (.resp r) scale format_type).2.logs
        = w.logs ++ [mkLogEntry now key "http_error" none none scale format_type pt
            (some ("HTTP " ++ toString r.status ++ ": " ++ r.text))]
    ∧ (enhance_image w now pt img key (.resp r) scale format_type).2.accounts
        = w.accounts := by
  refine ⟨?_, ?_, ?_, ?_, ?_⟩ <;>
    simp [enhance_image, hne, log_api_call, create_record, mkLogEntry, hlog]

theorem enhance_image_http_error_spec_witness :
    (enhance_image wA "T" "0.5" [1] "K1" (.resp r503) 4 "JPEG").1.1 = false
    ∧ (enhance_image wA "T" "0.5" [1] "K1" (.resp r503) 4 "JPEG").1.2.1 = none
    ∧ (enhance_image wA "T" "0.5" [1] "K1" (.resp r503) 4 "JPEG").1.2.2
        = Details.err ("HTTP " ++ toString r503.status ++ ": " ++ r503.text)
    ∧ (enhance_image wA "T" "0.5" [1] "K1" (.resp r503) 4 "JPEG").2.logs
        = wA.logs ++ [mkLogEntry "T" "K1" "http_error" none none 4 "JPEG" "0.5"
            (some ("HTTP " ++ toString r503.status ++ ": " ++ r503.text))]
    ∧ (enhance_image wA "T" "0.5" [1] "K1" (.resp r503) 4 "JPEG").2.accounts
        = wA.accounts :=
  enhance_image_http_error_spec wA "T" "0.5" [1] "K1" "JPEG" 4 r503 rfl (by decide)

/-- The message the HTTP 503 scenario of claim C6 produces does contain
"HTTP 503": it is exactly "HTTP 503: Service Unavailable". -/
theorem enhance_image_http_503_message :
    (enhance_image wA "T" "0.5" [1] "K1" (.resp r503) 4 "JPEG").1.2.2
      = Details.err "HTTP 503: Service Unavailable" := by
  decide

/-- A concrete HTTP 200 response with `success=false` and no `error`
field. -/
def rNoErr : EnhanceResponse := ⟨200, "", false, none, none, none, none⟩

/-- Claim C7 counterexample: for an HTTP 200 response with `success=false`
and no `error` field, the returned error message is the French default
"Erreur inconnue", not the string "unknown error" the claim states. -/
theorem api_error_default_counterexample :
    (enhance_image wA "T" "0.5" [1] "K1" (.resp rNoErr) 4 "JPEG").1.2.2
      = Details.err "Erreur inconnue"
    ∧ Details.err "Erreur inconnue" ≠ Details.err "unknown error" := by
  decide

/-- Claim C7 amended: on HTTP 200 with `success=false`, `enhance_image`
fails with one `"api_error"` log entry carrying the server-supplied error
text verbatim when the `error` field is present, and when it is absent the
message defaults to "Erreur inconnue" (the code's French wording of
"unknown error"). -/
theorem enhance_image_api_error_spec
    (w : World) (now pt : String) (img : List Nat) (key format_type : String)
    (scale : Int) (r : EnhanceResponse)
    (hlog : w.logsCreateFails = false) (h200 : r.status = 200)
    (hsf : r.success = false) :
    (enhance_image w now pt img key (.resp r) scale format_type).1.1 = false
    ∧ (enhance_image w now pt img key (.resp r) scale format_type).1.2.2
        = Details.err (r.error.getD "Erreur inconnue")
    ∧ (∀ msg, r.error = some msg →
        (enhance_image w now pt img key (.resp r) scale format_type).1.2.2
          = Details.err msg)
    ∧ (r.error = none →
        (enhance_image w now pt img key (.resp r) scale format_type).1.2.2
          = Details.err "Erreur inconnue")
    ∧ (enhance_image w now pt img key (.resp r) scale format_type).2.logs
        = w.logs ++ [mkLogEntry now key "api_error" none none scale format_type pt
            (some (r.error.getD "Erreur inconnue"))]
    ∧ (enhance_image w now pt img key (.resp r) scale format_type).2.accounts
        = w.accounts := by
  refine ⟨?_, ?_, ?_, ?_, ?_, ?_⟩
  · simp [enhance_image, h200, hsf]
  · simp [enhance_image, h200, hsf]
  · intro msg hmsg
    simp [enhance_image, h200, hsf, hmsg]
  · intro hnone
    simp [enhance_image, h200, hsf, hnone]
  · simp [enhance_image, h200, hsf, log_api_call, create_record, mkLogEntry, hlog]
  · simp [enhance_image, h200, hsf, log_api_call, create_record, mkLogEntry, hlog]

theorem enhance_image_api_error_spec_witness :
    (enhance_image wA "T" "0.5" [1] "K1" (.resp rApiErr) 4 "JPEG").1.1 = false
    ∧ (enhance_image wA "T" "0.5" [1] "K1" (.resp rApiErr) 4 "JPEG").1.2.2
        = Details.err (rApiErr.error.getD "Erreur inconnue")
    ∧ (∀ msg, rApiErr.error = some msg →
        (enhance_image wA "T" "0.5" [1] "K1" (.resp rApiErr) 4 "JPEG").1.2.2
          = Details.err msg)
    ∧ (rApiErr.error = none →
        (enhance_image wA "T" "0.5" [1] "K1" (.resp rApiErr) 4 "JPEG").1.2.2
          = Details.err "Erreur inconnue")
    ∧ (enhance_image wA "T" "0.5" [1] "K1" (.resp rApiErr) 4 "JPEG").2.logs
        = wA.logs ++ [mkLogEntry "T" "K1" "api_error" none none 4 "JPEG" "0.5"
            (some (rApiErr.error.getD "Erreur inconnue"))]
    ∧ (enhance_image wA "T" "0.5" [1] "K1" (.resp rApiErr) 4 "JPEG").2.accounts
        = wA.accounts :=
  enhance_image_api_error_spec wA "T" "0.5" [1] "K1" "JPEG" 4 rApiErr rfl rfl rfl

/-- Claim C8: `update_credits` re-queries the account by API key; when a
record is found and the update succeeds it patches `Used_credits` to the
current value plus `delta`; when no record is found, or the update call
fails, it silently drops the increment and leaves the world exactly as it
was.  It is a total function — it returns normally in every case and never
touches the logs, so it can never abort or roll back an enhancement result
already delivered. -/
theorem update_credits_spec (w : World) (key : String) (delta : Int) :
    (update_credits w key delta).logs = w.logs
    ∧ (get_records w key = [] → update_credits w key delta = w)
    ∧ (∀ rec rest, get_records w key = rec :: rest →
        (w.authUpdateFails = true → update_credits w key delta = w)
        ∧ (w.authUpdateFails = false →
            (update_credits w key delta).accounts
              = w.accounts.map (fun a => if a.id == rec.id
                  then { a with usedCredits := some (rec.usedCredits.getD 0 + delta) }
                  else a))) := by
  refine ⟨?_, ?_, ?_⟩
  · cases hg : get_records w key with
    | nil => simp [update_credits, hg]
    | cons rec rest =>
      cases hu : w.authUpdateFails <;>
        simp [update_credits, hg, update_record, hu]
  · intro hg
    simp [update_credits, hg]
  · intro rec rest hg
    constructor
    · intro hu
      simp [update_credits, hg, update_record, hu]
    · intro hu
      simp [update_credits, hg, update_record, hu]

theorem update_credits_spec_witness :
    (update_credits wA "K1" 2).logs = wA.logs
    ∧ (update_credits wA "K1" 2).accounts
        = wA.accounts.map (fun a => if a.id == recA.id
            then { a with usedCredits := some (recA.usedCredits.getD 0 + 2) } else a) :=
  ⟨(update_credits_spec wA "K1" 2).1,
   ((update_credits_spec wA "K1" 2).2.2 recA [] (by decide)).2 rfl⟩

/-- Claim C9: `get_correct_filename` is a pure total function returning
"{scale}x_{baseName}.{ext}" where the base name is the original filename
stripped of its extension (`os.path.splitext`) and the extension is derived
strictly from the format argument — "jpg" for "JPEG" and "png" for anything
else — independent of the original file's extension; in particular
`get_correct_filename "photo.png" 4 "JPEG" = "4x_photo.jpg"` and
`get_correct_filename "photo" 2 "PNG" = "2x_photo.png"`. -/
theorem get_correct_filename_spec :
    (∀ orig scale, get_correct_filename orig scale "JPEG"
        = toString scale ++ "x_" ++ (splitext orig).1 ++ ".jpg")
    ∧ (∀ orig scale format_type, format_type ≠ "JPEG" →
        get_correct_filename orig scale format_type
          = toString scale ++ "x_" ++ (splitext orig).1 ++ ".png")
    ∧ get_correct_filename "photo.png" 4 "JPEG" = "4x_photo.jpg"
    ∧ get_correct_filename "photo" 2 "PNG" = "2x_photo.png" := by
  refine ⟨?_, ?_, by decide, by decide⟩
  · intro orig scale
    rw [get_correct_filename]
    simp only [beq_self_eq_true, if_true]
    rw [String.append_assoc]
    rfl
  · intro orig scale format_type hne
    rw [get_correct_filename]
    rw [if_neg (by simpa using hne)]
    rw [String.append_assoc]
    rfl

theorem get_correct_filename_spec_witness :
    get_correct_filename "img.jpeg" 8 "PNG"
      = toString (8 : Int) ++ "x_" ++ (splitext "img.jpeg").1 ++ ".png" :=
  (get_correct_filename_spec.2.1) "img.jpeg" 8 "PNG" (by decide)

/-- A record bound to key "K2" in which both credit fields are absent. -/
def recB : AccountRecord := ⟨"r2", "K2", none, none⟩

/-- A healthy world holding only the field-less record `recB`. -/
def wB : World := ⟨[recB], [], false, false, false⟩

/-- Claim C10: a record whose `Used_credits` or `Allowed_credits` field is
absent is treated as holding 0 by both operations: with both fields absent
`check_api_key_credits` reports exhaustion with the message
"Plus de crédits restants (utilisés: 0/0)", and `update_credits` over a
record without `Used_credits` writes `Used_credits = delta`. -/
theorem missing_credit_fields_spec (w : World) (key : String) (rec : AccountRecord)
    (rest : List AccountRecord) (hget : get_records w key = rec :: rest)
    (hu : rec.usedCredits = none) :
    (rec.allowedCredits = none →
      check_api_key_credits w key
        = (some false, "Plus de crédits restants (utilisés: 0/0)"))
    ∧ (w.authUpdateFails = false → ∀ delta,
      (update_credits w key delta).accounts
        = w.accounts.map (fun a => if a.id == rec.id
            then { a with usedCredits := some delta } else a)) := by
  constructor
  · intro ha
    simp only [check_api_key_credits, hget, hu, ha, Option.getD_none]
    norm_num
    decide
  · intro hupd delta
    simp [update_credits, hget, hu, update_record, hupd]

theorem missing_credit_fields_spec_witness :
    (check_api_key_credits wB "K2"
        = (some false, "Plus de crédits restants (utilisés: 0/0)"))
    ∧ ((update_credits wB "K2" 3).accounts
        = wB.accounts.map (fun a => if a.id == recB.id
            then { a with usedCredits := some 3 } else a)) :=
  ⟨(missing_credit_fields_spec wB "K2" recB [] (by decide) rfl).1 rfl,
   (missing_credit_fields_spec wB "K2" recB [] (by decide) rfl).2 rfl 3⟩
